import Mathlib

/-!
Shallow embedding of the react-shopify-hooks persisted-state layer
(`hooksWithContext.js`): the persisted reducer, the session coordinator
(`renewToken`, `signOut`, `signIn`, automatic renewal), the checkout
coordinator (`createCheckoutWithContext`, auto-create effect) and the
line-item merge engine (`addToCheckout`).

The `./hooks` layer (gateway calls such as `renewCustomerAccessToken`,
`createCheckout`, `lineItemsReplace`) is an external collaborator: each
call returns either a `data` payload or a `userErrors` list, modelled by
`RemoteResult`.  The coordinators here are functions of the current state
and of the gateway result, so theorems quantify over every possible
gateway outcome.
-/

namespace ReactShopifyHooks

/-- A checkout line item `{variantId, quantity, customAttributes}` as built
by `addToCheckout`.  `customAttributes` is an optional caller-supplied
value (JavaScript `undefined` is `none`); identifiers and attribute values
are strings. -/
structure LineItem where
  variantId : String
  quantity : Int
  customAttributes : Option String
deriving DecidableEq

/-- The persisted global state managed by the reducer. -/
structure PersistedState where
  customerAccessToken : Option String
  customerAccessTokenExpiresAt : Option String
  checkoutId : Option String
  checkoutLineItems : List LineItem
deriving DecidableEq

/-- The `initialState` object of `hooksWithContext.js`. -/
def initialState : PersistedState :=
  { customerAccessToken := none
    customerAccessTokenExpiresAt := none
    checkoutId := none
    checkoutLineItems := [] }

/-- Action payloads used with the reducer.  JavaScript dispatches carry an
untyped `payload`; these are the shapes actually dispatched in the source,
plus `nullPayload` for dispatches without a payload (`{type: "RESET"}`). -/
inductive Payload
  | tokenPayload (accessToken : Option String) (expiresAt : Option String)
  | idPayload (id : Option String)
  | lineItemsPayload (items : List LineItem)
  | nullPayload
deriving DecidableEq

/-- Reading `payload.accessToken`: property access on a payload without
that key yields JavaScript `undefined` (`none`). -/
def Payload.accessToken : Payload → Option String
  | .tokenPayload a _ => a
  | _ => none

/-- Reading `payload.expiresAt`. -/
def Payload.expiresAt : Payload → Option String
  | .tokenPayload _ e => e
  | _ => none

/-- Using the whole payload as the checkout id (action `SET_CHECKOUT_ID`
stores `payload` directly into `checkoutId`). -/
def Payload.asId : Payload → Option String
  | .idPayload i => i
  | _ => none

/-- Using the whole payload as the line-item list (action
`SET_CHECKOUT_LINE_ITEMS` stores `payload` directly). -/
def Payload.asItems : Payload → List LineItem
  | .lineItemsPayload l => l
  | _ => []

/-- The persisted-state reducer: a switch on `action.type`.  The four
recognized actions return an updated state; any other type throws
`new Error(...)`, modelled as `Except.error`. -/
def reducer (state : PersistedState) (type_ : String) (payload : Payload) :
    Except String PersistedState :=
  if type_ = "SET_CUSTOMER_ACCESS_TOKEN" then
    Except.ok { state with
      customerAccessToken := payload.accessToken
      customerAccessTokenExpiresAt := payload.expiresAt }
  else if type_ = "SET_CHECKOUT_ID" then
    Except.ok { state with checkoutId := payload.asId }
  else if type_ = "SET_CHECKOUT_LINE_ITEMS" then
    Except.ok { state with checkoutLineItems := payload.asItems }
  else if type_ = "RESET" then
    Except.ok initialState
  else
    Except.error "Invalid action type. Please use a supported action."

/-- Dispatching to the persisted store.  The coordinators dispatch only the
four recognized action types, for which the reducer never throws, so the
error branch is unreachable in every use below. -/
def dispatch (state : PersistedState) (type_ : String) (payload : Payload) :
    PersistedState :=
  match reducer state type_ payload with
  | .ok s2 => s2
  | .error _ => state

/-- A user-facing error entry returned by the remote gateway. -/
structure UserError where
  message : String
deriving DecidableEq

/-- Result of a remote gateway call: either a `data` payload or a
`userErrors` list with no `data` (the source only tests `result.data`). -/
inductive RemoteResult (α : Type)
  | withData (d : α)
  | failure (userErrors : List UserError)
deriving DecidableEq

/-- The `data` payload of token-producing gateway calls
(`createCustomerAccessToken`, `renewCustomerAccessToken`,
`activateCustomer`, `resetCustomer`, `resetCustomerByUrl`). -/
structure TokenData where
  accessToken : Option String
  expiresAt : Option String
deriving DecidableEq

/-- The `data` payload of `createCheckout`: the new checkout identifier. -/
structure CheckoutData where
  id : String
deriving DecidableEq

/-- The state visible to the session coordinator: the persisted state plus
the ephemeral session-storage flag `sessionIsNew`. -/
structure SessionState where
  persisted : PersistedState
  sessionIsNew : Bool
deriving DecidableEq

/-- The `signOut` callback: if a token is present, call
`deleteCustomerAccessToken` (result ignored; the boolean records whether
the call was made), dispatch `RESET`, and set `sessionIsNew` to `true`. -/
def signOut (s : SessionState) : SessionState × Bool :=
  let deletionAttempted := s.persisted.customerAccessToken.isSome
  ({ persisted := dispatch s.persisted "RESET" Payload.nullPayload
     sessionIsNew := true }, deletionAttempted)

/-- The `renewToken` callback, as a function of the awaited
`renewCustomerAccessToken` result: on `result.data`, dispatch
`SET_CUSTOMER_ACCESS_TOKEN` with the returned fields and return the
result; otherwise await `signOut()` and return the result. -/
def renewToken (s : SessionState) (result : RemoteResult TokenData) :
    SessionState × RemoteResult TokenData :=
  match result with
  | .withData d =>
      ({ persisted := dispatch s.persisted "SET_CUSTOMER_ACCESS_TOKEN"
           (Payload.tokenPayload d.accessToken d.expiresAt)
         sessionIsNew := s.sessionIsNew }, result)
  | .failure _ => ((signOut s).1, result)

/-- The `renewTokenAutomatically` callback: await `renewToken()`, then set
`sessionIsNew` to `false`. -/
def renewTokenAutomatically (s : SessionState)
    (result : RemoteResult TokenData) : SessionState :=
  let s2 := (renewToken s result).1
  { s2 with sessionIsNew := false }

/-- The `signIn` action: on `result.data`, dispatch
`SET_CUSTOMER_ACCESS_TOKEN` and set `sessionIsNew` to `false`; the result
is returned in every case. -/
def signIn (s : SessionState) (result : RemoteResult TokenData) :
    SessionState × RemoteResult TokenData :=
  match result with
  | .withData d =>
      ({ persisted := dispatch s.persisted "SET_CUSTOMER_ACCESS_TOKEN"
           (Payload.tokenPayload d.accessToken d.expiresAt)
         sessionIsNew := false }, result)
  | .failure _ => (s, result)

/-- The `createCheckoutWithContext` action: on `result.data`, dispatch
`SET_CHECKOUT_ID` with the returned id; the result is returned in every
case. -/
def createCheckoutWithContext (p : PersistedState)
    (result : RemoteResult CheckoutData) :
    PersistedState × RemoteResult CheckoutData :=
  match result with
  | .withData d => (dispatch p "SET_CHECKOUT_ID" (Payload.idPayload (some d.id)), result)
  | .failure _ => (p, result)

/-- The `activateCustomer` action of `useShopifyCustomerWithContext`. -/
def activateCustomer (p : PersistedState) (result : RemoteResult TokenData) :
    PersistedState × RemoteResult TokenData :=
  match result with
  | .withData d =>
      (dispatch p "SET_CUSTOMER_ACCESS_TOKEN"
        (Payload.tokenPayload d.accessToken d.expiresAt), result)
  | .failure _ => (p, result)

/-- The `resetCustomer` action of `useShopifyCustomerWithContext` (same
body as `activateCustomer` in the source). -/
def resetCustomer (p : PersistedState) (result : RemoteResult TokenData) :
    PersistedState × RemoteResult TokenData :=
  match result with
  | .withData d =>
      (dispatch p "SET_CUSTOMER_ACCESS_TOKEN"
        (Payload.tokenPayload d.accessToken d.expiresAt), result)
  | .failure _ => (p, result)

/-- The `resetCustomerByUrl` action of `useShopifyCustomerWithContext`. -/
def resetCustomerByUrl (p : PersistedState) (result : RemoteResult TokenData) :
    PersistedState × RemoteResult TokenData :=
  match result with
  | .withData d =>
      (dispatch p "SET_CUSTOMER_ACCESS_TOKEN"
        (Payload.tokenPayload d.accessToken d.expiresAt), result)
  | .failure _ => (p, result)

/-- The duplicate test of `addToCheckout`: lodash `includes(variantId,
lineItem)` checks whether `variantId` occurs among the object's own values
`{variantId, quantity, customAttributes}` under SameValueZero.  `quantity`
is a number and the candidate `variantId` a string, so that value can
never match; the check therefore holds exactly when `variantId` equals the
entry's `variantId` field or its `customAttributes` value. -/
def lineItemMatches (variantId : String) (item : LineItem) : Bool :=
  item.variantId = variantId || item.customAttributes = some variantId

/-- The lodash `mergeWith(customizer, lineItem, newLineItem)` call of
`addToCheckout`: `quantity` sums (the customizer returns
`objValue + srcValue` for that key); every other key takes the new value
when it is defined, else keeps the existing one (`customAttributes` may be
`undefined` in the candidate, which lodash merge skips). -/
def mergeLineItem (existing newItem : LineItem) : LineItem :=
  { variantId := newItem.variantId
    quantity := existing.quantity + newItem.quantity
    customAttributes :=
      match newItem.customAttributes with
      | some a => some a
      | none => existing.customAttributes }

/-- The line-item computation of `addToCheckout(quantity,
customAttributes)` on hook argument `variantId`: map over the current
items merging every entry that passes the `includes` check
(`duplicateResolved` records whether any did); if none did, prepend the
candidate to the mapped list. -/
def computeNextLineItems (variantId : String) (quantity : Int)
    (customAttributes : Option String) (checkoutLineItems : List LineItem) :
    List LineItem :=
  let newLineItem : LineItem :=
    { variantId := variantId, quantity := quantity
      customAttributes := customAttributes }
  let duplicateResolved := checkoutLineItems.any (lineItemMatches variantId)
  let mergedLineItems := checkoutLineItems.map fun lineItem =>
    if lineItemMatches variantId lineItem then mergeLineItem lineItem newLineItem
    else lineItem
  if duplicateResolved then mergedLineItems
  else newLineItem :: mergedLineItems

/-- The full `addToCheckout` action as a state transformer: compute
`nextLineItems`, await `lineItemsReplace(nextLineItems)` (its result is
the last argument), then dispatch `SET_CHECKOUT_LINE_ITEMS` with
`nextLineItems` — the dispatch is not conditioned on the replace
result. -/
def addToCheckout (p : PersistedState) (variantId : String) (quantity : Int)
    (customAttributes : Option String) (replaceResult : RemoteResult Unit) :
    PersistedState :=
  let nextLineItems :=
    computeNextLineItems variantId quantity customAttributes p.checkoutLineItems
  match replaceResult with
  | .withData _ =>
      dispatch p "SET_CHECKOUT_LINE_ITEMS" (Payload.lineItemsPayload nextLineItems)
  | .failure _ =>
      dispatch p "SET_CHECKOUT_LINE_ITEMS" (Payload.lineItemsPayload nextLineItems)

/-- One `addToCheckout` invocation's arguments, for reasoning about call
sequences. -/
structure AddCall where
  variantId : String
  quantity : Int
  customAttributes : Option String
deriving DecidableEq

/-- The line item a call constructs as its candidate. -/
def AddCall.toLineItem (c : AddCall) : LineItem :=
  { variantId := c.variantId, quantity := c.quantity
    customAttributes := c.customAttributes }

/-- Sequential, awaited `addToCheckout` calls applied to a line-item
sequence. -/
def runAddCalls (l : List LineItem) : List AddCall → List LineItem
  | [] => l
  | c :: cs =>
      runAddCalls
        (computeNextLineItems c.variantId c.quantity c.customAttributes l) cs

/-- State of the automatic-renewal effect system: the session state plus a
count of how many times `renewToken` has been invoked by the effect. -/
structure AutoRenewState where
  session : SessionState
  renewCount : Nat
deriving DecidableEq

/-- One evaluation of the `useEffect` that guards automatic renewal: if a
token is present and `sessionIsNew` is `true`, run
`renewTokenAutomatically` (once, with the given gateway result); otherwise
do nothing. -/
def renewEffectStep (s : AutoRenewState) (result : RemoteResult TokenData) :
    AutoRenewState :=
  if s.session.persisted.customerAccessToken.isSome && s.session.sessionIsNew then
    { session := renewTokenAutomatically s.session result
      renewCount := s.renewCount + 1 }
  else s

/-- Events that can occur after the first automatic renewal while probing
the claim that it never re-triggers: further effect evaluations, and token
changes via `SET_CUSTOMER_ACCESS_TOKEN` dispatches (which do not touch the
ephemeral flag). -/
inductive SessionEvent
  | effectEval (result : RemoteResult TokenData)
  | setToken (accessToken : Option String) (expiresAt : Option String)

/-- Apply one session event. -/
def sessionStep (s : AutoRenewState) : SessionEvent → AutoRenewState
  | .effectEval r => renewEffectStep s r
  | .setToken a e =>
      { s with session :=
          { persisted := dispatch s.session.persisted "SET_CUSTOMER_ACCESS_TOKEN"
              (Payload.tokenPayload a e)
            sessionIsNew := s.session.sessionIsNew } }

/-- Apply a list of session events in order. -/
def sessionRun (s : AutoRenewState) : List SessionEvent → AutoRenewState
  | [] => s
  | e :: es => sessionRun (sessionStep s e) es

/-- State of the checkout auto-create effect system: the persisted state
plus a count of how many times `createCheckout` has been invoked by the
effect. -/
structure AutoCreateState where
  persisted : PersistedState
  createCount : Nat
deriving DecidableEq

/-- One evaluation of the `useEffect` that guards checkout auto-creation:
`if (autoCreate && !checkoutId) createCheckoutWithContext()`. -/
def createEffectStep (autoCreate : Bool) (s : AutoCreateState)
    (result : RemoteResult CheckoutData) : AutoCreateState :=
  if autoCreate && s.persisted.checkoutId.isNone then
    { persisted := (createCheckoutWithContext s.persisted result).1
      createCount := s.createCount + 1 }
  else s

/-- Repeated evaluations of the auto-create effect, one per gateway
result. -/
def createRun (autoCreate : Bool) (s : AutoCreateState) :
    List (RemoteResult CheckoutData) → AutoCreateState
  | [] => s
  | r :: rs => createRun autoCreate (createEffectStep autoCreate s r) rs

/-- Whether a gateway result is a failure (carries `userErrors` and no
`data`). -/
def RemoteResult.isFailure {α : Type} : RemoteResult α → Bool
  | .withData _ => false
  | .failure _ => true

/-- C5: `signOut()` leaves the persisted state equal to the exact initial
state and sets the ephemeral `sessionIsNew` flag to `true`, regardless of
the prior state; the remote token deletion is attempted exactly when a
token is currently present (`signOut` takes no gateway result at all, so
the outcome of the best-effort deletion cannot influence the resulting
state). -/
theorem signOut_resets_state (s : SessionState) :
    (signOut s).1.persisted = initialState
    ∧ (signOut s).1.sessionIsNew = true
    ∧ (signOut s).2 = s.persisted.customerAccessToken.isSome := by
  refine ⟨?_, rfl, rfl⟩
  simp [signOut, dispatch, reducer]

/-- C7: `renewToken()` on a result with a `data` payload dispatches
`SET_CUSTOMER_ACCESS_TOKEN` with the returned `accessToken` and
`expiresAt` (other persisted fields and the ephemeral flag untouched) and
returns that result; on a result with no `data` payload it performs
exactly `signOut()` and returns the failure result to the caller. -/
theorem renewToken_success_and_failure (s : SessionState) (d : TokenData)
    (es : List UserError) :
    renewToken s (.withData d) =
      ({ persisted :=
           { s.persisted with
             customerAccessToken := d.accessToken
             customerAccessTokenExpiresAt := d.expiresAt }
         sessionIsNew := s.sessionIsNew }, .withData d)
    ∧ renewToken s (.failure es) = ((signOut s).1, .failure es) := by
  constructor
  · simp [renewToken, dispatch, reducer, Payload.accessToken, Payload.expiresAt]
  · rfl

/-- C9: dispatching any of the four recognized action types to the
reducer never raises, for every state and payload, while dispatching an
action whose type is not one of the four raises the invalid-action
error. -/
theorem reducer_action_types (s : PersistedState) (p : Payload) (t : String)
    (h : t ∉ ["SET_CUSTOMER_ACCESS_TOKEN", "SET_CHECKOUT_ID",
              "SET_CHECKOUT_LINE_ITEMS", "RESET"]) :
    (reducer s "SET_CUSTOMER_ACCESS_TOKEN" p).toOption.isSome = true
    ∧ (reducer s "SET_CHECKOUT_ID" p).toOption.isSome = true
    ∧ (reducer s "SET_CHECKOUT_LINE_ITEMS" p).toOption.isSome = true
    ∧ (reducer s "RESET" p).toOption.isSome = true
    ∧ reducer s t p =
        Except.error "Invalid action type. Please use a supported action." := by
  simp only [List.mem_cons, List.not_mem_nil, or_false, not_or] at h
  obtain ⟨h1, h2, h3, h4⟩ := h
  refine ⟨rfl, rfl, rfl, rfl, ?_⟩
  simp [reducer, h1, h2, h3, h4]

/-- Witness for C9 at a concrete unrecognized action type. -/
theorem reducer_action_types_witness :
    ("FOO" ∉ ["SET_CUSTOMER_ACCESS_TOKEN", "SET_CHECKOUT_ID",
              "SET_CHECKOUT_LINE_ITEMS", "RESET"])
    ∧ ((reducer initialState "SET_CUSTOMER_ACCESS_TOKEN" Payload.nullPayload).toOption.isSome = true
       ∧ (reducer initialState "SET_CHECKOUT_ID" Payload.nullPayload).toOption.isSome = true
       ∧ (reducer initialState "SET_CHECKOUT_LINE_ITEMS" Payload.nullPayload).toOption.isSome = true
       ∧ (reducer initialState "RESET" Payload.nullPayload).toOption.isSome = true
       ∧ reducer initialState "FOO" Payload.nullPayload =
           Except.error "Invalid action type. Please use a supported action.") :=
  ⟨by decide, reducer_action_types initialState Payload.nullPayload "FOO" (by decide)⟩

/-- C10: each action that dispatches only on success — `signIn`,
`createCheckout` (with context), `activateCustomer`, `resetCustomer`,
`resetCustomerByUrl` — leaves the entire state unchanged on a result with
no `data` payload, and still returns that failure result to the
caller. -/
theorem failure_results_leave_state_unchanged (s : SessionState)
    (p : PersistedState) (es : List UserError) :
    signIn s (.failure es) = (s, .failure es)
    ∧ createCheckoutWithContext p (.failure es) = (p, .failure es)
    ∧ activateCustomer p (.failure es) = (p, .failure es)
    ∧ resetCustomer p (.failure es) = (p, .failure es)
    ∧ resetCustomerByUrl p (.failure es) = (p, .failure es) :=
  ⟨rfl, rfl, rfl, rfl, rfl⟩

/-- C4: `addToCheckout` updates the persisted `checkoutLineItems` to the
computed merged sequence for every possible outcome of the remote
line-items-replace call — a result carrying `userErrors` produces exactly
the same persisted state as a success, so the optimistic update is never
rolled back. -/
theorem addToCheckout_updates_unconditionally (p : PersistedState)
    (v : String) (q : Int) (ca : Option String) (r : RemoteResult Unit) :
    (addToCheckout p v q ca r).checkoutLineItems =
      computeNextLineItems v q ca p.checkoutLineItems
    ∧ addToCheckout p v q ca r = addToCheckout p v q ca (.failure []) := by
  cases r with
  | withData u => exact ⟨rfl, rfl⟩
  | failure es => exact ⟨rfl, rfl⟩

/-- Helper: the merge pass leaves a list with no matching entry
unchanged. -/
theorem map_merge_of_no_match (v : String) (n : LineItem) (l : List LineItem)
    (h : ∀ item ∈ l, lineItemMatches v item = false) :
    (l.map fun item =>
      if lineItemMatches v item then mergeLineItem item n else item) = l := by
  induction l with
  | nil => rfl
  | cons a as ih =>
      have ha : lineItemMatches v a = false := h a (by simp)
      have has : ∀ item ∈ as, lineItemMatches v item = false :=
        fun i hi => h i (by simp [hi])
      simp [ha, ih has]

/-- Helper: when no current entry passes the duplicate check, the
candidate is prepended and the rest of the sequence is untouched. -/
theorem computeNextLineItems_no_match (v : String) (q : Int)
    (ca : Option String) (l : List LineItem)
    (h : ∀ item ∈ l, lineItemMatches v item = false) :
    computeNextLineItems v q ca l =
      { variantId := v, quantity := q, customAttributes := ca } :: l := by
  have hany : l.any (lineItemMatches v) = false := by
    rw [List.any_eq_false]
    intro i hi
    simp [h i hi]
  simp [computeNextLineItems, hany, map_merge_of_no_match v _ l h]

/-- C1: two sequential, awaited `addToCheckout` calls with the same
`variantId`, starting from a sequence in which no entry passes the
duplicate check for that id, first insert the candidate at the front
(position 0) and then merge into that same entry: the final sequence is
the entry for that `variantId` with quantity `q1 + q2` at the position of
the first insertion, followed by the untouched original entries. -/
theorem addToCheckout_duplicate_sums (v : String) (q1 q2 : Int)
    (ca1 ca2 : Option String) (l : List LineItem)
    (h : ∀ item ∈ l, lineItemMatches v item = false) :
    computeNextLineItems v q1 ca1 l =
      { variantId := v, quantity := q1, customAttributes := ca1 } :: l
    ∧ computeNextLineItems v q2 ca2 (computeNextLineItems v q1 ca1 l) =
        { variantId := v, quantity := q1 + q2,
          customAttributes :=
            match ca2 with
            | some a => some a
            | none => ca1 } :: l := by
  have h1 := computeNextLineItems_no_match v q1 ca1 l h
  refine ⟨h1, ?_⟩
  rw [h1]
  have hhead :
      lineItemMatches v
        { variantId := v, quantity := q1, customAttributes := ca1 } = true := by
    simp [lineItemMatches]
  simp only [computeNextLineItems, List.any_cons, hhead, Bool.true_or,
    if_true, List.map_cons, map_merge_of_no_match v _ l h]
  simp [mergeLineItem]

/-- Witness for C1: quantities 2 and 3 on variant v1 over a one-entry
sequence for another variant. -/
theorem addToCheckout_duplicate_sums_witness :
    (∀ item ∈ [({ variantId := "a", quantity := 7,
                  customAttributes := none } : LineItem)],
       lineItemMatches "v1" item = false)
    ∧ (computeNextLineItems "v1" 2 none
         [{ variantId := "a", quantity := 7, customAttributes := none }] =
         [{ variantId := "v1", quantity := 2, customAttributes := none },
          { variantId := "a", quantity := 7, customAttributes := none }]
       ∧ computeNextLineItems "v1" 3 none
           (computeNextLineItems "v1" 2 none
             [{ variantId := "a", quantity := 7, customAttributes := none }]) =
           [{ variantId := "v1", quantity := 5, customAttributes := none },
            { variantId := "a", quantity := 7, customAttributes := none }]) :=
  ⟨by decide,
   addToCheckout_duplicate_sums "v1" 2 3 none none
     [{ variantId := "a", quantity := 7, customAttributes := none }]
     (by decide)⟩

/-- Counterexample for C2: the candidate has variantId v1; the only
existing entry has variantId a, different from v1, but its
`customAttributes` value equals v1, so the lodash `includes` check merges
it anyway — the entry with a differing `variantId` is merged (quantity
summed, variantId overwritten) instead of the candidate being
prepended. -/
theorem strict_variant_match_counterexample :
    computeNextLineItems "v1" 2 none
      [{ variantId := "a", quantity := 1, customAttributes := some "v1" }] =
      [{ variantId := "v1", quantity := 3, customAttributes := some "v1" }]
    ∧ computeNextLineItems "v1" 2 none
        [{ variantId := "a", quantity := 1, customAttributes := some "v1" }] ≠
        [{ variantId := "v1", quantity := 2, customAttributes := none },
         { variantId := "a", quantity := 1, customAttributes := some "v1" }] := by
  constructor
  · rfl
  · decide

/-- C2 amended: an existing line item is treated as a duplicate (and
merged) if and only if the candidate's `variantId` occurs among the
entry's field values — its `variantId` field or its `customAttributes`
value; entries matching neither are returned unchanged at their
position. -/
theorem merge_condition_is_loose_inclusion (v : String) (q : Int)
    (ca : Option String) (l : List LineItem) (i : Nat)
    (hdup : l.any (lineItemMatches v) = true) :
    (computeNextLineItems v q ca l)[i]? =
      (l[i]?).map fun item =>
        if item.variantId = v ∨ item.customAttributes = some v then
          mergeLineItem item
            { variantId := v, quantity := q, customAttributes := ca }
        else item := by
  have hfg : ∀ item : LineItem,
      (if lineItemMatches v item then
        mergeLineItem item
          { variantId := v, quantity := q, customAttributes := ca }
      else item) =
      (if item.variantId = v ∨ item.customAttributes = some v then
        mergeLineItem item
          { variantId := v, quantity := q, customAttributes := ca }
      else item) := by
    intro item
    by_cases hm : item.variantId = v ∨ item.customAttributes = some v
    · rw [if_pos hm, if_pos]
      simp only [lineItemMatches, Bool.or_eq_true, decide_eq_true_eq]
      exact hm
    · rw [if_neg hm, if_neg]
      simp only [lineItemMatches, Bool.or_eq_true, decide_eq_true_eq]
      exact hm
  simp only [computeNextLineItems, hdup, if_true, List.getElem?_map]
  cases l[i]? with
  | none => rfl
  | some item => simp [hfg item]

/-- Witness for C2 amended: the merged entry at position 0 of the
counterexample list, its `variantId` differing from the candidate's. -/
theorem merge_condition_is_loose_inclusion_witness :
    ([({ variantId := "a", quantity := 1,
         customAttributes := some "v1" } : LineItem)].any
       (lineItemMatches "v1") = true)
    ∧ (computeNextLineItems "v1" 2 none
         [{ variantId := "a", quantity := 1, customAttributes := some "v1" }])[0]? =
        (([({ variantId := "a", quantity := 1,
              customAttributes := some "v1" } : LineItem)])[0]?).map
          (fun item =>
            if item.variantId = "v1" ∨ item.customAttributes = some "v1" then
              mergeLineItem item
                { variantId := "v1", quantity := 2, customAttributes := none }
            else item) :=
  ⟨by decide,
   merge_condition_is_loose_inclusion "v1" 2 none
     [{ variantId := "a", quantity := 1, customAttributes := some "v1" }] 0
     (by decide)⟩

/-- Counterexample for C3: two calls with distinct variant ids a and b
starting from the empty sequence, yet the resulting sequence has length 1,
not 2 — the first call's `customAttributes` equals the second call's
`variantId`, so the loose duplicate check merges the second call into the
first entry instead of prepending it. -/
theorem distinct_variants_length_counterexample :
    runAddCalls []
      [{ variantId := "a", quantity := 1, customAttributes := some "b" },
       { variantId := "b", quantity := 1, customAttributes := none }] =
      [{ variantId := "b", quantity := 2, customAttributes := some "b" }]
    ∧ (runAddCalls []
        [{ variantId := "a", quantity := 1, customAttributes := some "b" },
         { variantId := "b", quantity := 1, customAttributes := none }]).length ≠ 2
    ∧ "a" ≠ "b" := by
  refine ⟨rfl, ?_, ?_⟩ <;> decide

/-- Helper: running calls over an accumulator none of them matches
prepends the calls' items in reverse call order. -/
theorem runAddCalls_no_match_app (calls : List AddCall) (acc : List LineItem)
    (hacc : ∀ c ∈ calls, ∀ item ∈ acc, lineItemMatches c.variantId item = false)
    (h : calls.Pairwise fun c d =>
      c.variantId ≠ d.variantId ∧ c.customAttributes ≠ some d.variantId) :
    runAddCalls acc calls = (calls.map AddCall.toLineItem).reverse ++ acc := by
  induction calls generalizing acc with
  | nil => simp [runAddCalls]
  | cons c cs ih =>
      obtain ⟨hcd, hPw⟩ := List.pairwise_cons.mp h
      have hc : ∀ item ∈ acc, lineItemMatches c.variantId item = false :=
        fun item hi => hacc c (by simp) item hi
      have hacc2 : ∀ d ∈ cs,
          ∀ item ∈ (AddCall.toLineItem c :: acc), lineItemMatches d.variantId item = false := by
        intro d hd item hitem
        rcases List.mem_cons.mp hitem with h1 | h2
        · subst h1
          have hne := hcd d hd
          simp [lineItemMatches, AddCall.toLineItem, hne.1, hne.2]
        · exact hacc d (by simp [hd]) item h2
      rw [runAddCalls, computeNextLineItems_no_match _ _ _ _ hc]
      have hstep :
          ({ variantId := c.variantId, quantity := c.quantity,
             customAttributes := c.customAttributes } : LineItem) =
          AddCall.toLineItem c := rfl
      rw [hstep, ih _ hacc2 hPw]
      simp [List.append_assoc]

/-- C3 amended: for every sequence of `addToCheckout` calls whose variant
ids are pairwise distinct — and, additionally forced by the loose
duplicate check, no call's `customAttributes` equals a later call's
`variantId` — starting from the empty sequence, the resulting sequence is
the calls' candidate items newest-first (each new candidate prepended,
existing entries keeping their relative order), so its length equals the
number of calls. -/
theorem runAddCalls_distinct_newest_first (calls : List AddCall)
    (h : calls.Pairwise fun c d =>
      c.variantId ≠ d.variantId ∧ c.customAttributes ≠ some d.variantId) :
    runAddCalls [] calls = (calls.map AddCall.toLineItem).reverse
    ∧ (runAddCalls [] calls).length = calls.length := by
  have happ := runAddCalls_no_match_app calls []
    (fun c _ item hitem => absurd hitem (List.not_mem_nil item)) h
  simp only [List.append_nil] at happ
  refine ⟨happ, ?_⟩
  rw [happ]
  simp

/-- Witness for C3 amended at two concrete calls. -/
theorem runAddCalls_distinct_newest_first_witness :
    ([({ variantId := "a", quantity := 1, customAttributes := none } : AddCall),
      { variantId := "b", quantity := 2, customAttributes := none }].Pairwise
      fun c d => c.variantId ≠ d.variantId ∧ c.customAttributes ≠ some d.variantId)
    ∧ (runAddCalls []
         [{ variantId := "a", quantity := 1, customAttributes := none },
          { variantId := "b", quantity := 2, customAttributes := none }] =
         ([({ variantId := "a", quantity := 1, customAttributes := none } : AddCall),
           { variantId := "b", quantity := 2, customAttributes := none }].map
            AddCall.toLineItem).reverse
       ∧ (runAddCalls []
           [{ variantId := "a", quantity := 1, customAttributes := none },
            { variantId := "b", quantity := 2, customAttributes := none }]).length = 2) :=
  ⟨by simp [List.pairwise_cons],
   runAddCalls_distinct_newest_first
     [{ variantId := "a", quantity := 1, customAttributes := none },
      { variantId := "b", quantity := 2, customAttributes := none }]
     (by simp [List.pairwise_cons])⟩

/-- Helper: while the ephemeral flag is `false`, effect evaluations and
token changes neither invoke the renewal again nor set the flag back. -/
theorem sessionRun_flag_false (es : List SessionEvent) (s : AutoRenewState)
    (h : s.session.sessionIsNew = false) :
    (sessionRun s es).renewCount = s.renewCount
    ∧ (sessionRun s es).session.sessionIsNew = false := by
  induction es generalizing s with
  | nil => exact ⟨rfl, h⟩
  | cons e es ih =>
      cases e with
      | effectEval r =>
          have hstep : renewEffectStep s r = s := by
            simp [renewEffectStep, h]
          rw [sessionRun, sessionStep, hstep]
          exact ih s h
      | setToken a e =>
          rw [sessionRun, sessionStep]
          have := ih { s with session :=
            { persisted := dispatch s.session.persisted "SET_CUSTOMER_ACCESS_TOKEN"
                (Payload.tokenPayload a e)
              sessionIsNew := s.session.sessionIsNew } } h
          exact this

/-- C6: when a persisted token exists and the ephemeral flag is `true`,
one evaluation of the automatic-renewal effect invokes `renewToken`
exactly once (the count rises by one) and clears the flag to `false`;
after that, any further effect evaluations and token changes leave the
invocation count unchanged (it never re-triggers while the flag is
`false`); and when that automatic renewal's gateway result has no `data`
payload, the resulting persisted state equals the reset initial state. -/
theorem auto_renew_once_and_failure_resets (s : AutoRenewState)
    (r : RemoteResult TokenData) (es : List SessionEvent)
    (htok : s.session.persisted.customerAccessToken.isSome = true)
    (hflag : s.session.sessionIsNew = true) :
    (renewEffectStep s r).renewCount = s.renewCount + 1
    ∧ (renewEffectStep s r).session.sessionIsNew = false
    ∧ (sessionRun (renewEffectStep s r) es).renewCount = s.renewCount + 1
    ∧ (r.isFailure = true →
        (renewEffectStep s r).session.persisted = initialState) := by
  have hguard :
      (s.session.persisted.customerAccessToken.isSome
        && s.session.sessionIsNew) = true := by
    rw [htok, hflag]
    rfl
  have hstep : renewEffectStep s r =
      { session := renewTokenAutomatically s.session r
        renewCount := s.renewCount + 1 } := by
    simp [renewEffectStep, hguard]
  have hflag2 : (renewEffectStep s r).session.sessionIsNew = false := by
    rw [hstep]
    rfl
  have hrun := sessionRun_flag_false es (renewEffectStep s r) hflag2
  refine ⟨by rw [hstep], hflag2, ?_, ?_⟩
  · rw [hrun.1, hstep]
  · intro hfail
    cases r with
    | withData d => simp [RemoteResult.isFailure] at hfail
    | failure errs =>
        rw [hstep]
        simp [renewTokenAutomatically, renewToken, signOut, dispatch, reducer]

/-- Witness for C6: a concrete session with a stored token, a failing
renewal result, and two later events (a token change and another effect
evaluation). -/
theorem auto_renew_once_and_failure_resets_witness :
    (({ session :=
          { persisted :=
              { customerAccessToken := some "t"
                customerAccessTokenExpiresAt := some "e"
                checkoutId := none
                checkoutLineItems := [] }
            sessionIsNew := true }
        renewCount := 0 } :
        AutoRenewState).session.persisted.customerAccessToken.isSome = true)
    ∧ (({ session :=
            { persisted :=
                { customerAccessToken := some "t"
                  customerAccessTokenExpiresAt := some "e"
                  checkoutId := none
                  checkoutLineItems := [] }
              sessionIsNew := true }
          renewCount := 0 } : AutoRenewState).session.sessionIsNew = true)
    ∧ ((renewEffectStep
          { session :=
              { persisted :=
                  { customerAccessToken := some "t"
                    customerAccessTokenExpiresAt := some "e"
                    checkoutId := none
                    checkoutLineItems := [] }
                sessionIsNew := true }
            renewCount := 0 }
          (.failure [])).renewCount = 0 + 1
       ∧ (renewEffectStep
            { session :=
                { persisted :=
                    { customerAccessToken := some "t"
                      customerAccessTokenExpiresAt := some "e"
                      checkoutId := none
                      checkoutLineItems := [] }
                  sessionIsNew := true }
              renewCount := 0 }
            (.failure [])).session.sessionIsNew = false
       ∧ (sessionRun
            (renewEffectStep
              { session :=
                  { persisted :=
                      { customerAccessToken := some "t"
                        customerAccessTokenExpiresAt := some "e"
                        checkoutId := none
                        checkoutLineItems := [] }
                    sessionIsNew := true }
                renewCount := 0 }
              (.failure []))
            [.setToken (some "u") (some "f"),
             .effectEval (.withData { accessToken := some "x", expiresAt := some "y" })]).renewCount
           = 0 + 1
       ∧ ((RemoteResult.failure (α := TokenData) []).isFailure = true →
           (renewEffectStep
              { session :=
                  { persisted :=
                      { customerAccessToken := some "t"
                        customerAccessTokenExpiresAt := some "e"
                        checkoutId := none
                        checkoutLineItems := [] }
                    sessionIsNew := true }
                renewCount := 0 }
              (.failure [])).session.persisted = initialState)) :=
  ⟨rfl, rfl,
   auto_renew_once_and_failure_resets
     { session :=
         { persisted :=
             { customerAccessToken := some "t"
               customerAccessTokenExpiresAt := some "e"
               checkoutId := none
               checkoutLineItems := [] }
           sessionIsNew := true }
       renewCount := 0 }
     (.failure [])
     [.setToken (some "u") (some "f"),
      .effectEval (.withData { accessToken := some "x", expiresAt := some "y" })]
     rfl rfl⟩

/-- Helper: once a checkout id is persisted, the auto-create effect never
fires again. -/
theorem createRun_guarded (rs : List (RemoteResult CheckoutData))
    (s : AutoCreateState) (h : s.persisted.checkoutId.isSome = true) :
    createRun true s rs = s := by
  induction rs generalizing s with
  | nil => rfl
  | cons r rs ih =>
      have hnone : s.persisted.checkoutId.isNone = false := by
        cases hc : s.persisted.checkoutId with
        | none => rw [hc] at h; simp at h
        | some x => rfl
      have hstep : createEffectStep true s r = s := by
        simp [createEffectStep, hnone]
      rw [createRun, hstep]
      exact ih s h

/-- C8: with auto-create enabled and no persisted checkout id, one
evaluation of the auto-create effect invokes `createCheckout` exactly once
(the count rises by one); a successful result makes the persisted
`checkoutId` the identifier returned by the gateway, and the now non-null
`checkoutId` guard stops every later effect evaluation from re-triggering
(state and count unchanged thereafter). -/
theorem auto_create_once (s : AutoCreateState) (id : String)
    (rs : List (RemoteResult CheckoutData))
    (h : s.persisted.checkoutId = none) :
    (createEffectStep true s (.withData { id := id })).persisted.checkoutId = some id
    ∧ (createEffectStep true s (.withData { id := id })).createCount = s.createCount + 1
    ∧ createRun true (createEffectStep true s (.withData { id := id })) rs =
        createEffectStep true s (.withData { id := id }) := by
  have hnone : s.persisted.checkoutId.isNone = true := by
    rw [h]; rfl
  have hstep : createEffectStep true s (.withData { id := id }) =
      { persisted := (createCheckoutWithContext s.persisted (.withData { id := id })).1
        createCount := s.createCount + 1 } := by
    simp [createEffectStep, hnone]
  have hid : (createEffectStep true s (.withData { id := id })).persisted.checkoutId =
      some id := by
    rw [hstep]
    simp [createCheckoutWithContext, dispatch, reducer, Payload.asId]
  refine ⟨hid, by rw [hstep], ?_⟩
  exact createRun_guarded rs _ (by rw [hid]; rfl)

/-- Witness for C8: fresh initial state, gateway id c1, two further effect
evaluations afterward. -/
theorem auto_create_once_witness :
    (({ persisted := initialState, createCount := 0 } :
        AutoCreateState).persisted.checkoutId = none)
    ∧ ((createEffectStep true { persisted := initialState, createCount := 0 }
          (.withData { id := "c1" })).persisted.checkoutId = some "c1"
       ∧ (createEffectStep true { persisted := initialState, createCount := 0 }
            (.withData { id := "c1" })).createCount = 0 + 1
       ∧ createRun true
           (createEffectStep true { persisted := initialState, createCount := 0 }
             (.withData { id := "c1" }))
           [.withData { id := "c2" }, .failure []] =
           createEffectStep true { persisted := initialState, createCount := 0 }
             (.withData { id := "c1" })) :=
  ⟨rfl,
   auto_create_once { persisted := initialState, createCount := 0 } "c1"
     [.withData { id := "c2" }, .failure []] rfl⟩

end ReactShopifyHooks
